import Mathlib

/-! Drag-and-drop glue of the LAF OS library.

A shallow embedding of `src/os/win/dnd.cpp` and `src/os/osx/dnd.h`:

* the drop-operation conversions of both platforms,
* the pixel-format inference of `DragDataProviderOSX::getImage`,
* the `contains` / `getImage` queries of both data providers,
* the four `IDropTarget` callbacks of `DragTargetAdapter`.

Machine integers are natural numbers; an assignment to a `uint32_t` field is
taken modulo `2^32`.  Values the C++ code leaves indeterminate (a local
declared without an initialiser) are explicit arguments of the embedding.
-/

namespace os

/-! ## The shared enumeration `os::DropOperation` -/

/-- Modelled from the spec: the header `os/dnd.h` declaring the enumeration
`os::DropOperation` is missing from the sources, so the numeric values of its
constants are a parameter.  The spec calls them "bit flags: Copy, Move, Link,
None". -/
structure DropOperation where
  None : Nat
  Copy : Nat
  Move : Nat
  Link : Nat
  deriving DecidableEq

/-- The constants are bit flags: `None` is the empty set, every other flag is
non-empty and no two flags share a bit. -/
def DropOperation.IsFlags (E : DropOperation) : Prop :=
  E.None = 0 ∧ E.Copy ≠ 0 ∧ E.Move ≠ 0 ∧ E.Link ≠ 0 ∧
  E.Copy &&& E.Move = 0 ∧ E.Copy &&& E.Link = 0 ∧ E.Move &&& E.Link = 0

instance (E : DropOperation) : Decidable E.IsFlags := by
  unfold DropOperation.IsFlags
  infer_instance

/-- The combination of flags selected by three booleans, built with `|`. -/
def DropOperation.combine (E : DropOperation) (copy move link : Bool) : Nat :=
  (if copy then E.Copy else 0) ||| (if move then E.Move else 0) |||
    (if link then E.Link else 0)

/-- The usual numbering of the flags (`None = 0, Copy = 1, Move = 2, Link = 4`). -/
def DropOperation.standard : DropOperation :=
  { None := 0, Copy := 1, Move := 2, Link := 4 }

/-- Modelled from the spec: the enumeration `os::DragDataItemType` of the
missing header `os/dnd.h`, "Drag Data Item Type (enum: Paths, Image)". -/
inductive DragDataItemType where
  | Paths
  | Image
  deriving DecidableEq

/-- Modelled from the spec: the enumeration `os::PixelAlpha` of the missing
header `os/surface_format.h`, the "alpha-interpretation tag (opaque / straight
/ premultiplied)". -/
inductive PixelAlpha where
  | kOpaque
  | kPremultiplied
  | kStraight
  deriving DecidableEq

/-- Value stored in a `uint32_t`. -/
def u32 (x : Nat) : Nat := x % 2 ^ 32

/-- Modelled from the spec: the header `os/surface_format.h` declaring
`os::SurfaceFormatData` is missing from the sources.  The spec describes it as
"bits-per-pixel, per-channel (red/green/blue/alpha) bit-mask and bit-shift, and
an alpha-interpretation tag"; the code walks the four shifts and the four masks
as arrays that start at `redShift` and `redMask`, in the order red, green,
blue, alpha.  All numeric fields are `uint32_t`. -/
structure SurfaceFormatData where
  bitsPerPixel : Nat
  redShift : Nat
  greenShift : Nat
  blueShift : Nat
  alphaShift : Nat
  redMask : Nat
  greenMask : Nat
  blueMask : Nat
  alphaMask : Nat
  pixelAlpha : PixelAlpha
  deriving DecidableEq

/-- Read of `shifts[i]`, where `shifts = &sf.redShift`. -/
def SurfaceFormatData.shiftAt (sf : SurfaceFormatData) : Nat → Nat
  | 0 => sf.redShift
  | 1 => sf.greenShift
  | 2 => sf.blueShift
  | _ => sf.alphaShift

/-- Write of `shifts[i]`, where `shifts = &sf.redShift`. -/
def SurfaceFormatData.setShiftAt (sf : SurfaceFormatData) (i v : Nat) : SurfaceFormatData :=
  match i with
  | 0 => { sf with redShift := u32 v }
  | 1 => { sf with greenShift := u32 v }
  | 2 => { sf with blueShift := u32 v }
  | _ => { sf with alphaShift := u32 v }

/-- Write of `masks[i]`, where `masks = &sf.redMask`. -/
def SurfaceFormatData.setMaskAt (sf : SurfaceFormatData) (i v : Nat) : SurfaceFormatData :=
  match i with
  | 0 => { sf with redMask := u32 v }
  | 1 => { sf with greenMask := u32 v }
  | 2 => { sf with blueMask := u32 v }
  | _ => { sf with alphaMask := u32 v }

/-- A descriptor whose fields are all zero, used as sample storage content. -/
def SurfaceFormatData.zero : SurfaceFormatData :=
  { bitsPerPixel := 0, redShift := 0, greenShift := 0, blueShift := 0, alphaShift := 0,
    redMask := 0, greenMask := 0, blueMask := 0, alphaMask := 0,
    pixelAlpha := PixelAlpha.kOpaque }

/-- Modelled from the spec: the rendering layer is missing from the sources;
the spec describes "a surface-construction function taking (width, height,
format descriptor, pixel buffer pointer) and returning a shared image surface
handle", so a surface is the record of the four arguments it was made from. -/
structure Surface where
  width : Nat
  height : Nat
  format : SurfaceFormatData
  data : List Nat
  deriving DecidableEq

/-- The call `os::instance()->makeSurface(width, height, sf, data)`. -/
def makeSurface (width height : Nat) (sf : SurfaceFormatData) (data : List Nat) : Surface :=
  { width := width, height := height, format := sf, data := data }

/-- A test `value & flag` used as a C++ condition. -/
def hasFlag (value flag : Nat) : Bool := value &&& flag != 0

end os

/-! ## Windows: `src/os/win/dnd.cpp` -/

namespace win

open os

/-- Windows SDK constant `DROPEFFECT_NONE`. -/
def DROPEFFECT_NONE : Nat := 0
/-- Windows SDK constant `DROPEFFECT_COPY`. -/
def DROPEFFECT_COPY : Nat := 1
/-- Windows SDK constant `DROPEFFECT_MOVE`. -/
def DROPEFFECT_MOVE : Nat := 2
/-- Windows SDK constant `DROPEFFECT_LINK`. -/
def DROPEFFECT_LINK : Nat := 4

/-- Embedding of `as_dropeffect` (dnd.cpp lines 12-25). -/
def as_dropeffect (E : DropOperation) (op : Nat) : Nat :=
  let effect := DROPEFFECT_NONE
  let effect := if op &&& E.Copy ≠ 0 then effect ||| DROPEFFECT_COPY else effect
  let effect := if op &&& E.Move ≠ 0 then effect ||| DROPEFFECT_MOVE else effect
  let effect := if op &&& E.Link ≠ 0 then effect ||| DROPEFFECT_LINK else effect
  effect

/-- Embedding of `as_dropoperation` (dnd.cpp lines 27-40). -/
def as_dropoperation (E : DropOperation) (pdwEffect : Nat) : Nat :=
  let op := 0
  let op := if pdwEffect &&& DROPEFFECT_COPY ≠ 0 then op ||| E.Copy else op
  let op := if pdwEffect &&& DROPEFFECT_MOVE ≠ 0 then op ||| E.Move else op
  let op := if pdwEffect &&& DROPEFFECT_LINK ≠ 0 then op ||| E.Link else op
  op

/-- Windows SDK constant `CF_DIB`. -/
def CF_DIB : Nat := 8
/-- Windows SDK constant `CF_HDROP`. -/
def CF_HDROP : Nat := 15
/-- Windows SDK constant `CF_DIBV5`. -/
def CF_DIBV5 : Nat := 17

/-- Windows SDK status `S_OK`. -/
def S_OK : Nat := 0
/-- Windows SDK status `E_NOTIMPL`. -/
def E_NOTIMPL : Nat := 0x80004001
/-- Windows SDK status `E_UNEXPECTED`. -/
def E_UNEXPECTED : Nat := 0x8000FFFF

/-- The field of a `FORMATETC` that `contains` reads. -/
structure FORMATETC where
  cfFormat : Nat
  deriving DecidableEq

/-- An `IDataObject` as the data provider sees it: `formats` is `none` when
`EnumFormatEtc(DATADIR_GET, ...)` does not answer `S_OK`, and otherwise the
entries the enumerator hands out with `Next` until it stops answering `S_OK`. -/
structure IDataObject where
  formats : Option (List FORMATETC)
  deriving DecidableEq

/-- The system table behind `GetClipboardFormatName`: the name registered for a
format identifier, as its characters, `none` when the call fails and returns 0. -/
abbrev ClipboardFormatNames := Nat → Option (List Char)

/-- The buffer `name` after `GetClipboardFormatName(fmt.cfFormat, name, 100)`
and `name[namelen] = 0` (dnd.cpp lines 197-198): at most 99 characters of the
registered name, no character at all when the call fails. -/
def clipboardFormatName (names : ClipboardFormatNames) (cfFormat : Nat) : List Char :=
  ((names cfFormat).getD []).take 99

/-- The test `lstrcmpi(a, b) == 0`: equality of strings, letter case ignored
(the case of ASCII letters, which is all the two names compared with have). -/
def lstrcmpiEq (a b : List Char) : Bool := a.map Char.toLower == b.map Char.toLower

/-- Embedding of `DragDataProviderWin::getImage` (dnd.cpp lines 78-174): the
whole body is commented out but for `return nullptr;`. -/
def getImage (_m_data : IDataObject) : Option Surface := none

/-- The loop `while (formats->Next(1, &fmt, nullptr) == S_OK)` of
`DragDataProviderWin::contains` (dnd.cpp lines 185-206) over the entries left;
the answer is the final value of `found`. -/
def containsLoop (names : ClipboardFormatNames) (type : DragDataItemType) :
    List FORMATETC → Bool
  | [] => false
  | fmt :: rest =>
    if type = DragDataItemType.Paths ∧ fmt.cfFormat = CF_HDROP then true
    else if type = DragDataItemType.Image then
      if fmt.cfFormat = CF_DIB ∨ fmt.cfFormat = CF_DIBV5 then true
      else
        let name := clipboardFormatName names fmt.cfFormat
        if lstrcmpiEq name ['P', 'N', 'G'] ∨
            lstrcmpiEq name ['i', 'm', 'a', 'g', 'e', '/', 'p', 'n', 'g'] then true
        else containsLoop names type rest
    else containsLoop names type rest

/-- Embedding of `DragDataProviderWin::contains` (dnd.cpp lines 176-210). -/
def contains (names : ClipboardFormatNames) (m_data : IDataObject)
    (type : DragDataItemType) : Bool :=
  match m_data.formats with
  | none => false
  | some formats => containsLoop names type formats

/-- The type `gfx::Point`. -/
structure Point where
  x : Int
  y : Int
  deriving DecidableEq

/-- Modelled from the spec: `os::DragEvent` is declared in the missing header
`os/dnd.h`.  This is the event as the adapter constructs it: the supported
operations, the position and the native handle its `DragDataProviderWin` is
built on (`m_data.get()`, `none` for a null pointer).  The target is always
`m_window`. -/
structure DragEvent where
  supportedOperations : Nat
  position : Point
  dataProvider : Option IDataObject
  deriving DecidableEq

/-- Modelled from the spec: `os::Window` is declared in the missing header
`os/window.h`; the spec lists what the adapter consumes from it, the
`hasDragTarget()` query, the four notify callbacks and `nativeHandle()`.  This
is the window as the adapter uses it: the answer of `hasDragTarget()`, the
effect of `ScreenToClient` with its `nativeHandle()`, and for each notify
handler the value `ev.dropResult()` holds once the handler has returned. -/
structure Window where
  hasDragTarget : Bool
  screenToClient : Point → Point
  notifyDragEnter : DragEvent → Nat
  notifyDrag : DragEvent → Nat
  notifyDragLeave : DragEvent → Nat
  notifyDrop : DragEvent → Nat

/-- A call of one of the notify handlers of the window, with its event. -/
inductive Notification where
  | dragEnter (ev : DragEvent)
  | drag (ev : DragEvent)
  | dragLeave (ev : DragEvent)
  | drop (ev : DragEvent)
  deriving DecidableEq

/-- Modelled from the spec: the class is declared in the missing header
`os/win/dnd.h`.  These are its session fields as the callbacks use them: the
held data handle `m_data` and the stored position `m_position`. -/
structure DragTargetAdapter where
  m_data : Option IDataObject
  m_position : Point
  deriving DecidableEq

/-- What a callback leaves behind: the returned `HRESULT`, the adapter fields,
the value of `*pdwEffect` and the handlers of the window it invoked, in order. -/
structure CallResult where
  hr : Nat
  adapter : DragTargetAdapter
  pdwEffect : Nat
  notified : List Notification
  deriving DecidableEq

/-- What `DragLeave`, which has no `pdwEffect` argument, leaves behind. -/
structure LeaveResult where
  hr : Nat
  adapter : DragTargetAdapter
  notified : List Notification
  deriving DecidableEq

/-- Embedding of `drag_position` (dnd.cpp lines 43-47). -/
def drag_position (m_window : Window) (pt : Point) : Point :=
  let pt := m_window.screenToClient pt
  { x := pt.x, y := pt.y }

/-- Embedding of `DragTargetAdapter::DragEnter` (dnd.cpp lines 241-265). -/
def DragEnter (E : DropOperation) (m_window : Window) (self : DragTargetAdapter)
    (pDataObj : Option IDataObject) (_grfKeyState : Nat) (pt : Point) (pdwEffect : Nat) :
    CallResult :=
  if !m_window.hasDragTarget then
    { hr := E_NOTIMPL, adapter := self, pdwEffect := pdwEffect, notified := [] }
  else
    let self := { self with m_data := pDataObj }
    if self.m_data.isNone then
      { hr := E_UNEXPECTED, adapter := self, pdwEffect := pdwEffect, notified := [] }
    else
      let self := { self with m_position := drag_position m_window pt }
      let ev : DragEvent :=
        { supportedOperations := as_dropoperation E pdwEffect,
          position := self.m_position, dataProvider := self.m_data }
      let dropResult := m_window.notifyDragEnter ev
      { hr := S_OK, adapter := self, pdwEffect := as_dropeffect E dropResult,
        notified := [Notification.dragEnter ev] }

/-- Embedding of `DragTargetAdapter::DragOver` (dnd.cpp lines 267-286). -/
def DragOver (E : DropOperation) (m_window : Window) (self : DragTargetAdapter)
    (_grfKeyState : Nat) (pt : Point) (pdwEffect : Nat) : CallResult :=
  if !m_window.hasDragTarget then
    { hr := E_NOTIMPL, adapter := self, pdwEffect := pdwEffect, notified := [] }
  else
    let self := { self with m_position := drag_position m_window pt }
    let ev : DragEvent :=
      { supportedOperations := as_dropoperation E pdwEffect,
        position := self.m_position, dataProvider := self.m_data }
    let dropResult := m_window.notifyDrag ev
    { hr := S_OK, adapter := self, pdwEffect := as_dropeffect E dropResult,
      notified := [Notification.drag ev] }

/-- Embedding of `DragTargetAdapter::DragLeave` (dnd.cpp lines 288-302). -/
def DragLeave (E : DropOperation) (m_window : Window) (self : DragTargetAdapter) :
    LeaveResult :=
  if !m_window.hasDragTarget then
    { hr := E_NOTIMPL, adapter := self, notified := [] }
  else
    let ev : DragEvent :=
      { supportedOperations := E.None, position := self.m_position,
        dataProvider := self.m_data }
    let _dropResult := m_window.notifyDragLeave ev
    let self := { self with m_data := none }
    { hr := S_OK, adapter := self, notified := [Notification.dragLeave ev] }

/-- Embedding of `DragTargetAdapter::Drop` (dnd.cpp lines 304-328). -/
def Drop (E : DropOperation) (m_window : Window) (self : DragTargetAdapter)
    (pDataObj : Option IDataObject) (_grfKeyState : Nat) (pt : Point) (pdwEffect : Nat) :
    CallResult :=
  if !m_window.hasDragTarget then
    { hr := E_NOTIMPL, adapter := self, pdwEffect := pdwEffect, notified := [] }
  else
    let self := { self with m_data := pDataObj }
    if self.m_data.isNone then
      { hr := E_UNEXPECTED, adapter := self, pdwEffect := pdwEffect, notified := [] }
    else
      let self := { self with m_position := drag_position m_window pt }
      let ev : DragEvent :=
        { supportedOperations := as_dropoperation E pdwEffect,
          position := self.m_position, dataProvider := self.m_data }
      let dropResult := m_window.notifyDrop ev
      let self := { self with m_data := none }
      { hr := S_OK, adapter := self, pdwEffect := as_dropeffect E dropResult,
        notified := [Notification.drop ev] }

/-- One callback of the host, with its arguments. -/
inductive Callback where
  | DragEnter (pDataObj : Option IDataObject) (grfKeyState : Nat) (pt : Point)
      (pdwEffect : Nat)
  | DragOver (grfKeyState : Nat) (pt : Point) (pdwEffect : Nat)
  | DragLeave
  | Drop (pDataObj : Option IDataObject) (grfKeyState : Nat) (pt : Point)
      (pdwEffect : Nat)
  deriving DecidableEq

/-- The adapter fields together with every handler of the window invoked so
far, oldest first. -/
structure Session where
  adapter : DragTargetAdapter
  notified : List Notification
  deriving DecidableEq

/-- The host delivers one callback to the adapter of a session. -/
def Session.deliver (E : DropOperation) (m_window : Window) (s : Session) :
    Callback → Session
  | Callback.DragEnter pDataObj grfKeyState pt pdwEffect =>
    let r := win.DragEnter E m_window s.adapter pDataObj grfKeyState pt pdwEffect
    { adapter := r.adapter, notified := s.notified ++ r.notified }
  | Callback.DragOver grfKeyState pt pdwEffect =>
    let r := win.DragOver E m_window s.adapter grfKeyState pt pdwEffect
    { adapter := r.adapter, notified := s.notified ++ r.notified }
  | Callback.DragLeave =>
    let r := win.DragLeave E m_window s.adapter
    { adapter := r.adapter, notified := s.notified ++ r.notified }
  | Callback.Drop pDataObj grfKeyState pt pdwEffect =>
    let r := win.Drop E m_window s.adapter pDataObj grfKeyState pt pdwEffect
    { adapter := r.adapter, notified := s.notified ++ r.notified }

/-- The host delivers a sequence of callbacks, in order. -/
def Session.run (E : DropOperation) (m_window : Window) (s : Session)
    (calls : List Callback) : Session :=
  calls.foldl (Session.deliver E m_window) s

end win

/-! ## macOS: `src/os/osx/dnd.h` -/

namespace osx

open os

/-- AppKit constant `NSDragOperationNone`. -/
def NSDragOperationNone : Nat := 0
/-- AppKit constant `NSDragOperationCopy`. -/
def NSDragOperationCopy : Nat := 1
/-- AppKit constant `NSDragOperationLink`. -/
def NSDragOperationLink : Nat := 2
/-- AppKit constant `NSDragOperationMove`. -/
def NSDragOperationMove : Nat := 16

/-- Embedding of `as_nsdragoperation` (dnd.h lines 156-169).  The local
`NSDragOperation nsdop;` is declared without an initialiser, so the value it
starts with is whatever the storage holds: the argument `nsdop0`. -/
def as_nsdragoperation (E : DropOperation) (nsdop0 : Nat) (op : Nat) : Nat :=
  let nsdop := nsdop0
  let nsdop := if op &&& E.Copy ≠ 0 then nsdop ||| NSDragOperationCopy else nsdop
  let nsdop := if op &&& E.Move ≠ 0 then nsdop ||| NSDragOperationMove else nsdop
  let nsdop := if op &&& E.Link ≠ 0 then nsdop ||| NSDragOperationLink else nsdop
  nsdop

/-- Embedding of `as_dropoperation` (dnd.h lines 171-184). -/
def as_dropoperation (E : DropOperation) (nsdop : Nat) : Nat :=
  let op := 0
  let op := if nsdop &&& NSDragOperationCopy ≠ 0 then op ||| E.Copy else op
  let op := if nsdop &&& NSDragOperationMove ≠ 0 then op ||| E.Move else op
  let op := if nsdop &&& NSDragOperationLink ≠ 0 then op ||| E.Link else op
  op

/-- AppKit constant `NSBitmapFormatAlphaFirst`. -/
def NSBitmapFormatAlphaFirst : Nat := 1
/-- AppKit constant `NSBitmapFormatAlphaNonpremultiplied`. -/
def NSBitmapFormatAlphaNonpremultiplied : Nat := 2
/-- AppKit constant `NSBitmapFormatFloatingPointSamples`. -/
def NSBitmapFormatFloatingPointSamples : Nat := 4
/-- AppKit constant `NSBitmapFormatSixteenBitBigEndian`. -/
def NSBitmapFormatSixteenBitBigEndian : Nat := 1024
/-- AppKit constant `NSBitmapFormatThirtyTwoBitBigEndian`. -/
def NSBitmapFormatThirtyTwoBitBigEndian : Nat := 2048

/-- AppKit constant `NSFilenamesPboardType`. -/
def NSFilenamesPboardType : String := "NSFilenamesPboardType"
/-- AppKit constant `NSPasteboardTypePNG`. -/
def NSPasteboardTypePNG : String := "public.png"
/-- AppKit constant `NSPasteboardTypeTIFF`. -/
def NSPasteboardTypeTIFF : String := "public.tiff"

/-- The properties of an `NSBitmapImageRep` that `getImage` reads. -/
structure NSBitmapImageRep where
  bitmapFormat : Nat
  planar : Bool
  bitsPerPixel : Nat
  samplesPerPixel : Nat
  alpha : Bool
  pixelsWide : Nat
  pixelsHigh : Nat
  bitmapData : List Nat
  deriving DecidableEq

/-- What the property reads give on a `nil` bitmap: in Objective-C a message to
`nil` answers zero, `NO` or a null pointer. -/
def NSBitmapImageRep.nil : NSBitmapImageRep :=
  { bitmapFormat := 0, planar := false, bitsPerPixel := 0, samplesPerPixel := 0,
    alpha := false, pixelsWide := 0, pixelsHigh := 0, bitmapData := [] }

/-- An `NSPasteboard` as `getImage` and `contains` see it: the declared types,
the data `dataForType:` answers for a type (`none` for `nil`), and the result
of `+[NSBitmapImageRep imageRepWithData:]` on such data (`none` for `nil`). -/
structure NSPasteboard where
  types : List String
  dataForType : String → Option (List Nat)
  imageRepWithData : List Nat → Option NSBitmapImageRep

/-- The method `-[NSPasteboard availableTypeFromArray:]`: the first type of the
array that the pasteboard declares. -/
def NSPasteboard.availableTypeFromArray (pb : NSPasteboard) (arr : List String) :
    Option String :=
  arr.find? (fun t => decide (t ∈ pb.types))

/-- True when one of the two big-endian bits of the bitmap format is set (the
condition of dnd.h lines 100-101 and 108-109). -/
def bigEndian (bitmap : NSBitmapImageRep) : Bool :=
  hasFlag bitmap.bitmapFormat NSBitmapFormatSixteenBitBigEndian ||
    hasFlag bitmap.bitmapFormat NSBitmapFormatThirtyTwoBitBigEndian

/-- The guess of dnd.h line 76. -/
def bitsPerSample (bitmap : NSBitmapImageRep) : Nat :=
  if bitmap.bitsPerPixel = 16 then 5 else 8

/-- The value `((1ul << bits_per_sample) - 1ul) << shift` of dnd.h line 116,
before it is stored in a `uint32_t` mask. -/
def channelMask (bits_per_sample shift : Nat) : Nat :=
  ((1 <<< bits_per_sample) - 1) <<< shift

/-- Embedding of dnd.h lines 64-129, the pixel-format inference of
`DragDataProviderOSX::getImage`.  The local `SurfaceFormatData sf;` has no
initialiser: the argument `sf` is what its storage holds at first.  The answer
`Except.error` is the thrown `base::Exception` with its message. -/
def inferSurfaceFormat (bitmap : NSBitmapImageRep) (sf : SurfaceFormatData) :
    Except String SurfaceFormatData :=
  if hasFlag bitmap.bitmapFormat NSBitmapFormatFloatingPointSamples || bitmap.planar then
    Except.error "Image format is not supported"
  else
    let sf := { sf with bitsPerPixel := u32 bitmap.bitsPerPixel }
    let sf :=
      if bitmap.samplesPerPixel ≥ 3 then
        let bits_per_sample := if bitmap.bitsPerPixel = 16 then 5 else 8
        let bits_shift := 0
        -- With alpha
        let (sf, bits_shift) :=
          if bitmap.alpha then
            if hasFlag bitmap.bitmapFormat NSBitmapFormatAlphaFirst then
              ({ sf with alphaShift := u32 0 }, bits_shift + bits_per_sample)
            else
              ({ sf with alphaShift := u32 (3 * bits_per_sample) }, bits_shift)
          else (sf, bits_shift)
        -- Red/green/blue shifts
        let (sf, _) :=
          [0, 1, 2].foldl
            (fun (acc : SurfaceFormatData × Nat) i =>
              (acc.1.setShiftAt i acc.2, acc.2 + bits_per_sample))
            (sf, bits_shift)
        let sf :=
          if bitmap.alpha then
            if hasFlag bitmap.bitmapFormat NSBitmapFormatSixteenBitBigEndian ||
                hasFlag bitmap.bitmapFormat NSBitmapFormatThirtyTwoBitBigEndian then
              let sf := { sf with redShift := sf.alphaShift, alphaShift := sf.redShift }
              { sf with greenShift := sf.blueShift, blueShift := sf.greenShift }
            else sf
          else
            if hasFlag bitmap.bitmapFormat NSBitmapFormatSixteenBitBigEndian ||
                hasFlag bitmap.bitmapFormat NSBitmapFormatThirtyTwoBitBigEndian then
              { sf with redShift := sf.blueShift, blueShift := sf.redShift }
            else sf
        -- Calculate all masks
        let sf :=
          [0, 1, 2, 3].foldl
            (fun (acc : SurfaceFormatData) i =>
              acc.setMaskAt i (channelMask bits_per_sample (acc.shiftAt i)))
            sf
        -- Without alpha
        if !bitmap.alpha then { sf with alphaMask := 0 } else sf
      else sf
    let sf :=
      if bitmap.alpha then
        { sf with pixelAlpha :=
            if hasFlag bitmap.bitmapFormat NSBitmapFormatAlphaNonpremultiplied then
              PixelAlpha.kStraight
            else PixelAlpha.kPremultiplied }
      else { sf with pixelAlpha := PixelAlpha.kOpaque }
    Except.ok sf

/-- The three ways `DragDataProviderOSX::getImage` can end. -/
inductive GetImageResult where
  | null
  | threw (message : String)
  | surface (s : Surface)
  deriving DecidableEq

/-- Embedding of `DragDataProviderOSX::getImage` (dnd.h lines 47-138); `sf0` is
the content of the storage of the local `sf` before any assignment. -/
def getImage (m_pasteboard : NSPasteboard) (sf0 : SurfaceFormatData) : GetImageResult :=
  match m_pasteboard.availableTypeFromArray [NSPasteboardTypePNG, NSPasteboardTypeTIFF] with
  | none => GetImageResult.null
  | some imageType =>
    match m_pasteboard.dataForType imageType with
    | none => GetImageResult.null
    | some data =>
      let bitmap := (m_pasteboard.imageRepWithData data).getD NSBitmapImageRep.nil
      match inferSurfaceFormat bitmap sf0 with
      | Except.error message => GetImageResult.threw message
      | Except.ok sf =>
        GetImageResult.surface
          (makeSurface bitmap.pixelsWide bitmap.pixelsHigh sf bitmap.bitmapData)

/-- The loop `for (NSPasteboardType t in m_pasteboard.types)` of
`DragDataProviderOSX::contains` (dnd.h lines 141-150) over the types left. -/
def containsLoop (type : DragDataItemType) : List String → Bool
  | [] => false
  | t :: rest =>
    if type = DragDataItemType.Paths ∧ t = NSFilenamesPboardType then true
    else if type = DragDataItemType.Image ∧
        (t = NSPasteboardTypeTIFF ∨ t = NSPasteboardTypePNG) then true
    else containsLoop type rest

/-- Embedding of `DragDataProviderOSX::contains` (dnd.h lines 140-152). -/
def contains (m_pasteboard : NSPasteboard) (type : DragDataItemType) : Bool :=
  containsLoop type m_pasteboard.types

end osx

/-! ## Sample inputs -/

namespace osx

open os

/-- A 32 bits per pixel bitmap with 4 samples, alpha first, little-endian and
not premultiplied. -/
def sampleArgb32 : NSBitmapImageRep :=
  { bitmapFormat := 3, planar := false, bitsPerPixel := 32, samplesPerPixel := 4,
    alpha := true, pixelsWide := 2, pixelsHigh := 1,
    bitmapData := [255, 1, 2, 3, 255, 4, 5, 6] }

/-- A 32 bits per pixel bitmap with 4 samples, alpha last, big-endian. -/
def sampleRgba32BigEndian : NSBitmapImageRep :=
  { bitmapFormat := 2048, planar := false, bitsPerPixel := 32, samplesPerPixel := 4,
    alpha := true, pixelsWide := 1, pixelsHigh := 1, bitmapData := [1, 2, 3, 255] }

/-- The bitmap `sampleRgba32BigEndian` with the big-endian bit cleared. -/
def sampleRgba32 : NSBitmapImageRep :=
  { bitmapFormat := 0, planar := false, bitsPerPixel := 32, samplesPerPixel := 4,
    alpha := true, pixelsWide := 1, pixelsHigh := 1, bitmapData := [1, 2, 3, 255] }

/-- A 24 bits per pixel bitmap with 3 samples and no alpha, little-endian, with
the alpha-first and non-premultiplied bits set all the same. -/
def sampleRgb24 : NSBitmapImageRep :=
  { bitmapFormat := 3, planar := false, bitsPerPixel := 24, samplesPerPixel := 3,
    alpha := false, pixelsWide := 1, pixelsHigh := 1, bitmapData := [1, 2, 3] }

/-- A 16 bits per pixel bitmap with 4 samples and alpha last, little-endian. -/
def sampleRgba16 : NSBitmapImageRep :=
  { bitmapFormat := 0, planar := false, bitsPerPixel := 16, samplesPerPixel := 4,
    alpha := true, pixelsWide := 1, pixelsHigh := 1, bitmapData := [52, 18] }

/-- A planar bitmap with three 8-bit samples. -/
def samplePlanar : NSBitmapImageRep :=
  { bitmapFormat := 0, planar := true, bitsPerPixel := 8, samplesPerPixel := 3,
    alpha := false, pixelsWide := 1, pixelsHigh := 1, bitmapData := [1, 2, 3] }

/-- A pasteboard that declares PNG data decoding to the bitmap `samplePlanar`. -/
def samplePasteboardPlanar : NSPasteboard :=
  { types := [NSPasteboardTypePNG],
    dataForType := fun t => if t = NSPasteboardTypePNG then some [137, 80, 78, 71] else none,
    imageRepWithData := fun _ => some samplePlanar }

/-- A pasteboard that declares a file list and TIFF data decoding to the bitmap
`sampleArgb32`. -/
def samplePasteboardImage : NSPasteboard :=
  { types := [NSFilenamesPboardType, NSPasteboardTypeTIFF],
    dataForType := fun _ => some [73, 73, 42, 0],
    imageRepWithData := fun _ => some sampleArgb32 }

/-- A pasteboard that declares PNG while `dataForType:` answers `nil`. -/
def samplePasteboardNoData : NSPasteboard :=
  { types := [NSPasteboardTypePNG],
    dataForType := fun _ => none,
    imageRepWithData := fun _ => none }

end osx

namespace win

open os

/-- A data object that offers a device-independent bitmap only. -/
def sampleDibObject : IDataObject := { formats := some [{ cfFormat := CF_DIB }] }

/-- A system without any registered clipboard format name. -/
def sampleNoNames : ClipboardFormatNames := fun _ => none

/-- A window with a drag target whose handlers all ask for a copy. -/
def sampleWindow : Window :=
  { hasDragTarget := true,
    screenToClient := fun pt => { x := pt.x - 100, y := pt.y - 50 },
    notifyDragEnter := fun _ => DropOperation.standard.Copy,
    notifyDrag := fun _ => DropOperation.standard.Copy,
    notifyDragLeave := fun _ => DropOperation.standard.Copy,
    notifyDrop := fun _ => DropOperation.standard.Copy }

/-- The window `sampleWindow` without a drag target. -/
def sampleWindowNoTarget : Window := { sampleWindow with hasDragTarget := false }

/-- An adapter in the middle of a session. -/
def sampleAdapter : DragTargetAdapter :=
  { m_data := some sampleDibObject, m_position := { x := 3, y := 4 } }

/-- An adapter that holds no data handle. -/
def sampleIdleAdapter : DragTargetAdapter :=
  { m_data := none, m_position := { x := 0, y := 0 } }

end win

/-! ## Drop-operation conversions -/

section Flags

open os

theorem and_combine_copy (E : DropOperation) (h : E.IsFlags) (c m l : Bool) :
    E.combine c m l &&& E.Copy = if c then E.Copy else 0 := by
  obtain ⟨_, _, _, _, hcm, hcl, hml⟩ := h
  have hmc : E.Move &&& E.Copy = 0 := by rw [Nat.and_comm]; exact hcm
  have hlc : E.Link &&& E.Copy = 0 := by rw [Nat.and_comm]; exact hcl
  cases c <;> cases m <;> cases l <;>
    simp [DropOperation.combine, Nat.and_distrib_right, hmc, hlc]

theorem and_combine_move (E : DropOperation) (h : E.IsFlags) (c m l : Bool) :
    E.combine c m l &&& E.Move = if m then E.Move else 0 := by
  obtain ⟨_, _, _, _, hcm, hcl, hml⟩ := h
  have hlm : E.Link &&& E.Move = 0 := by rw [Nat.and_comm]; exact hml
  cases c <;> cases m <;> cases l <;>
    simp [DropOperation.combine, Nat.and_distrib_right, hcm, hlm]

theorem and_combine_link (E : DropOperation) (h : E.IsFlags) (c m l : Bool) :
    E.combine c m l &&& E.Link = if l then E.Link else 0 := by
  obtain ⟨_, _, _, _, hcm, hcl, hml⟩ := h
  cases c <;> cases m <;> cases l <;>
    simp [DropOperation.combine, Nat.and_distrib_right, hcl, hml]

/-- What `as_dropeffect` answers on a combination of flags. -/
theorem win_as_dropeffect_combine (E : DropOperation) (h : E.IsFlags) (c m l : Bool) :
    win.as_dropeffect E (E.combine c m l) =
      (if c then 1 else 0) ||| (if m then 2 else 0) ||| (if l then 4 else 0) := by
  have h1 := and_combine_copy E h c m l
  have h2 := and_combine_move E h c m l
  have h3 := and_combine_link E h c m l
  obtain ⟨_, hc, hm, hl, _, _, _⟩ := h
  unfold win.as_dropeffect
  rw [h1, h2, h3]
  cases c <;> cases m <;> cases l <;>
    simp [hc, hm, hl, win.DROPEFFECT_NONE, win.DROPEFFECT_COPY, win.DROPEFFECT_MOVE,
      win.DROPEFFECT_LINK]

/-- C1: on Windows, for each of the 8 combinations of the flags Copy, Move and
Link (the empty one, None, included), converting the combination to a native
drop effect with `as_dropeffect` and back with `as_dropoperation` gives the
combination again. -/
theorem win_dropoperation_roundtrip (E : DropOperation) (h : E.IsFlags) (c m l : Bool) :
    win.as_dropoperation E (win.as_dropeffect E (E.combine c m l)) = E.combine c m l := by
  rw [win_as_dropeffect_combine E h c m l]
  cases c <;> cases m <;> cases l <;>
    simp +decide [win.as_dropoperation, DropOperation.combine, win.DROPEFFECT_COPY,
      win.DROPEFFECT_MOVE, win.DROPEFFECT_LINK]

theorem win_dropoperation_roundtrip_witness :
    DropOperation.standard.IsFlags ∧
      win.as_dropoperation DropOperation.standard
        (win.as_dropeffect DropOperation.standard
          (DropOperation.standard.combine true false true)) =
        DropOperation.standard.combine true false true :=
  ⟨by decide, win_dropoperation_roundtrip DropOperation.standard (by decide) true false true⟩


/-- With storage that happens to hold zero, `as_nsdragoperation` is the OR of
the native constants of the flags that are set. -/
theorem osx_as_nsdragoperation_from_zero (E : DropOperation) (h : E.IsFlags)
    (c m l : Bool) :
    osx.as_nsdragoperation E 0 (E.combine c m l) =
      (if c then osx.NSDragOperationCopy else 0) |||
        (if m then osx.NSDragOperationMove else 0) |||
        (if l then osx.NSDragOperationLink else 0) := by
  have h1 := and_combine_copy E h c m l
  have h2 := and_combine_move E h c m l
  have h3 := and_combine_link E h c m l
  obtain ⟨_, hc, hm, hl, _, _, _⟩ := h
  unfold osx.as_nsdragoperation
  rw [h1, h2, h3]
  cases c <;> cases m <;> cases l <;>
    simp [hc, hm, hl, osx.NSDragOperationCopy, osx.NSDragOperationMove,
      osx.NSDragOperationLink]

/-- On the empty combination no branch of `as_nsdragoperation` is taken: the
answer is the content the storage of `nsdop` had. -/
theorem osx_as_nsdragoperation_none (E : DropOperation) (nsdop0 : Nat) :
    osx.as_nsdragoperation E nsdop0 0 = nsdop0 := by
  simp [osx.as_nsdragoperation]

/-- C7: on macOS `as_nsdragoperation` starts from a local without initialiser.
With the flags numbered as usual, the operation None and storage that holds 32
(the bit of `NSDragOperationDelete`), the answer is 32: it is not
`NSDragOperationNone` and it has a bit that belongs to no flag of the
operation. -/
theorem osx_as_nsdragoperation_keeps_storage_bits :
    osx.as_nsdragoperation DropOperation.standard 32 DropOperation.standard.None = 32 ∧
      osx.as_nsdragoperation DropOperation.standard 32 DropOperation.standard.None ≠
        osx.NSDragOperationNone ∧
      osx.as_nsdragoperation DropOperation.standard 32 DropOperation.standard.None &&&
        (osx.NSDragOperationCopy ||| osx.NSDragOperationMove ||| osx.NSDragOperationLink) = 0 := by
  decide

end Flags

/-! ## Pixel-format inference -/

section PixelFormat

open os osx

/-- C2: for an accepted bitmap (no floating-point samples, not planar) with at
least 3 samples per pixel, an alpha channel, the alpha-first bit set and no
big-endian bit set, the inferred descriptor has alpha shift 0, red, green and
blue shifts of 1, 2 and 3 times `bits_per_sample` (5 for 16 bits per pixel, 8
otherwise), every mask equal to `((1 << bits_per_sample) - 1)` shifted by the
shift of its channel, and alpha tag straight when the non-premultiplied bit is
set, premultiplied otherwise. -/
theorem inferSurfaceFormat_alpha_first_little_endian
    (bitmap : NSBitmapImageRep) (sf0 : SurfaceFormatData)
    (hfloat : hasFlag bitmap.bitmapFormat NSBitmapFormatFloatingPointSamples = false)
    (hplanar : bitmap.planar = false)
    (hsamples : bitmap.samplesPerPixel ≥ 3)
    (halpha : bitmap.alpha = true)
    (hfirst : hasFlag bitmap.bitmapFormat NSBitmapFormatAlphaFirst = true)
    (hle : bigEndian bitmap = false) :
    inferSurfaceFormat bitmap sf0 = Except.ok
      { bitsPerPixel := u32 bitmap.bitsPerPixel,
        alphaShift := 0,
        redShift := bitsPerSample bitmap,
        greenShift := 2 * bitsPerSample bitmap,
        blueShift := 3 * bitsPerSample bitmap,
        alphaMask := ((1 <<< bitsPerSample bitmap) - 1) <<< 0,
        redMask := ((1 <<< bitsPerSample bitmap) - 1) <<< bitsPerSample bitmap,
        greenMask := ((1 <<< bitsPerSample bitmap) - 1) <<< (2 * bitsPerSample bitmap),
        blueMask := ((1 <<< bitsPerSample bitmap) - 1) <<< (3 * bitsPerSample bitmap),
        pixelAlpha :=
          if hasFlag bitmap.bitmapFormat NSBitmapFormatAlphaNonpremultiplied then
            PixelAlpha.kStraight
          else PixelAlpha.kPremultiplied } := by
  unfold bigEndian at hle
  unfold inferSurfaceFormat bitsPerSample
  simp only [hfloat, hplanar, hsamples, halpha, hfirst, hle]
  by_cases h16 : bitmap.bitsPerPixel = 16
  · simp +decide [h16, SurfaceFormatData.setShiftAt, SurfaceFormatData.setMaskAt,
      SurfaceFormatData.shiftAt, channelMask, u32]
  · simp +decide [h16, SurfaceFormatData.setShiftAt, SurfaceFormatData.setMaskAt,
      SurfaceFormatData.shiftAt, channelMask, u32]

theorem inferSurfaceFormat_alpha_first_little_endian_witness :
    (hasFlag sampleArgb32.bitmapFormat NSBitmapFormatFloatingPointSamples = false ∧
      sampleArgb32.planar = false ∧ sampleArgb32.samplesPerPixel ≥ 3 ∧
      sampleArgb32.alpha = true ∧
      hasFlag sampleArgb32.bitmapFormat NSBitmapFormatAlphaFirst = true ∧
      bigEndian sampleArgb32 = false) ∧
    inferSurfaceFormat sampleArgb32 SurfaceFormatData.zero = Except.ok
      { bitsPerPixel := 32, alphaShift := 0, redShift := 8, greenShift := 16,
        blueShift := 24, alphaMask := 0xFF, redMask := 0xFF00, greenMask := 0xFF0000,
        blueMask := 0xFF000000, pixelAlpha := PixelAlpha.kStraight } :=
  ⟨by decide,
    inferSurfaceFormat_alpha_first_little_endian sampleArgb32 SurfaceFormatData.zero
      (by decide) (by decide) (by decide) (by decide) (by decide) (by decide)⟩

theorem lt_two_pow_iff (c k n : Nat) (hk : 0 < k) (h1 : c < 2 ^ k) (h2 : 2 ^ (k - 1) ≤ c) :
    c < 2 ^ n ↔ k ≤ n := by
  constructor
  · intro h
    by_contra hn
    have hle : n ≤ k - 1 := by omega
    have : 2 ^ n ≤ 2 ^ (k - 1) := Nat.pow_le_pow_right (by decide) hle
    omega
  · intro h
    have : 2 ^ k ≤ 2 ^ n := Nat.pow_le_pow_right (by decide) h
    omega

theorem lt_two_pow_8 (n : Nat) : 255 < 2 ^ n ↔ 8 ≤ n :=
  lt_two_pow_iff 255 8 n (by decide) (by decide) (by decide)

theorem lt_two_pow_16 (n : Nat) : 65280 < 2 ^ n ↔ 16 ≤ n :=
  lt_two_pow_iff 65280 16 n (by decide) (by decide) (by decide)

theorem lt_two_pow_24 (n : Nat) : 16711680 < 2 ^ n ↔ 24 ≤ n :=
  lt_two_pow_iff 16711680 24 n (by decide) (by decide) (by decide)

theorem lt_two_pow_32 (n : Nat) : 4278190080 < 2 ^ n ↔ 32 ≤ n :=
  lt_two_pow_iff 4278190080 32 n (by decide) (by decide) (by decide)

/-- C8: for an accepted big-endian bitmap with at least 3 samples per pixel,
compared with an accepted little-endian bitmap of the same bits per pixel,
alpha presence and alpha position: with alpha the final shifts are the
little-endian ones with red and alpha exchanged and green and blue exchanged,
without alpha only red and blue are exchanged.  With alpha last this is alpha
0, blue `bits_per_sample`, green twice and red three times that; without alpha
it is blue 0, green `bits_per_sample`, red twice that.  The red, green and blue
masks, and the alpha mask when there is alpha, are `((1 << bits_per_sample) -
1)` shifted by these final shifts. -/
theorem inferSurfaceFormat_big_endian (big little : NSBitmapImageRep)
    (sf0 : SurfaceFormatData)
    (hfloat : hasFlag big.bitmapFormat NSBitmapFormatFloatingPointSamples = false)
    (hplanar : big.planar = false)
    (hsamples : big.samplesPerPixel ≥ 3)
    (hbig : bigEndian big = true)
    (hfloat2 : hasFlag little.bitmapFormat NSBitmapFormatFloatingPointSamples = false)
    (hplanar2 : little.planar = false)
    (hsamples2 : little.samplesPerPixel ≥ 3)
    (hlittle : bigEndian little = false)
    (hbpp : little.bitsPerPixel = big.bitsPerPixel)
    (halpha : little.alpha = big.alpha)
    (hfirst : hasFlag little.bitmapFormat NSBitmapFormatAlphaFirst =
      hasFlag big.bitmapFormat NSBitmapFormatAlphaFirst) :
    ∃ sf le, inferSurfaceFormat big sf0 = Except.ok sf ∧
      inferSurfaceFormat little sf0 = Except.ok le ∧
      (big.alpha = true →
        sf.redShift = le.alphaShift ∧ sf.alphaShift = le.redShift ∧
        sf.greenShift = le.blueShift ∧ sf.blueShift = le.greenShift) ∧
      (big.alpha = false →
        sf.redShift = le.blueShift ∧ sf.blueShift = le.redShift ∧
        sf.greenShift = le.greenShift ∧ sf.alphaShift = le.alphaShift) ∧
      (big.alpha = true → hasFlag big.bitmapFormat NSBitmapFormatAlphaFirst = false →
        sf.alphaShift = 0 ∧ sf.blueShift = bitsPerSample big ∧
        sf.greenShift = 2 * bitsPerSample big ∧ sf.redShift = 3 * bitsPerSample big) ∧
      (big.alpha = false →
        sf.blueShift = 0 ∧ sf.greenShift = bitsPerSample big ∧
        sf.redShift = 2 * bitsPerSample big) ∧
      sf.redMask = ((1 <<< bitsPerSample big) - 1) <<< sf.redShift ∧
      sf.greenMask = ((1 <<< bitsPerSample big) - 1) <<< sf.greenShift ∧
      sf.blueMask = ((1 <<< bitsPerSample big) - 1) <<< sf.blueShift ∧
      (big.alpha = true →
        sf.alphaMask = ((1 <<< bitsPerSample big) - 1) <<< sf.alphaShift) := by
  unfold bigEndian at hbig hlittle
  unfold inferSurfaceFormat bitsPerSample
  simp only [hfloat, hplanar, hsamples, hbig, hfloat2, hplanar2, hsamples2, hlittle, hbpp,
    halpha, hfirst]
  by_cases h16 : big.bitsPerPixel = 16 <;>
  by_cases ha : big.alpha = true <;>
  by_cases hf : hasFlag big.bitmapFormat NSBitmapFormatAlphaFirst = true <;>
    simp +decide [h16, ha, hf, SurfaceFormatData.setShiftAt, SurfaceFormatData.setMaskAt,
      SurfaceFormatData.shiftAt, channelMask, u32]

theorem inferSurfaceFormat_big_endian_witness :
    (hasFlag sampleRgba32BigEndian.bitmapFormat NSBitmapFormatFloatingPointSamples = false ∧
      sampleRgba32BigEndian.planar = false ∧ sampleRgba32BigEndian.samplesPerPixel ≥ 3 ∧
      bigEndian sampleRgba32BigEndian = true ∧
      hasFlag sampleRgba32.bitmapFormat NSBitmapFormatFloatingPointSamples = false ∧
      sampleRgba32.planar = false ∧ sampleRgba32.samplesPerPixel ≥ 3 ∧
      bigEndian sampleRgba32 = false ∧
      sampleRgba32.bitsPerPixel = sampleRgba32BigEndian.bitsPerPixel ∧
      sampleRgba32.alpha = sampleRgba32BigEndian.alpha ∧
      hasFlag sampleRgba32.bitmapFormat NSBitmapFormatAlphaFirst =
        hasFlag sampleRgba32BigEndian.bitmapFormat NSBitmapFormatAlphaFirst) ∧
    ∃ sf le, inferSurfaceFormat sampleRgba32BigEndian SurfaceFormatData.zero = Except.ok sf ∧
      inferSurfaceFormat sampleRgba32 SurfaceFormatData.zero = Except.ok le ∧
      (sampleRgba32BigEndian.alpha = true →
        sf.redShift = le.alphaShift ∧ sf.alphaShift = le.redShift ∧
        sf.greenShift = le.blueShift ∧ sf.blueShift = le.greenShift) ∧
      (sampleRgba32BigEndian.alpha = false →
        sf.redShift = le.blueShift ∧ sf.blueShift = le.redShift ∧
        sf.greenShift = le.greenShift ∧ sf.alphaShift = le.alphaShift) ∧
      (sampleRgba32BigEndian.alpha = true →
        hasFlag sampleRgba32BigEndian.bitmapFormat NSBitmapFormatAlphaFirst = false →
        sf.alphaShift = 0 ∧ sf.blueShift = bitsPerSample sampleRgba32BigEndian ∧
        sf.greenShift = 2 * bitsPerSample sampleRgba32BigEndian ∧
        sf.redShift = 3 * bitsPerSample sampleRgba32BigEndian) ∧
      (sampleRgba32BigEndian.alpha = false →
        sf.blueShift = 0 ∧ sf.greenShift = bitsPerSample sampleRgba32BigEndian ∧
        sf.redShift = 2 * bitsPerSample sampleRgba32BigEndian) ∧
      sf.redMask = ((1 <<< bitsPerSample sampleRgba32BigEndian) - 1) <<< sf.redShift ∧
      sf.greenMask = ((1 <<< bitsPerSample sampleRgba32BigEndian) - 1) <<< sf.greenShift ∧
      sf.blueMask = ((1 <<< bitsPerSample sampleRgba32BigEndian) - 1) <<< sf.blueShift ∧
      (sampleRgba32BigEndian.alpha = true →
        sf.alphaMask = ((1 <<< bitsPerSample sampleRgba32BigEndian) - 1) <<< sf.alphaShift) :=
  ⟨by decide,
    inferSurfaceFormat_big_endian sampleRgba32BigEndian sampleRgba32 SurfaceFormatData.zero
      (by decide) (by decide) (by decide) (by decide) (by decide) (by decide) (by decide)
      (by decide) (by decide) (by decide) (by decide)⟩

/-- C9: for an accepted bitmap without an alpha channel and with at least 3
samples per pixel, the alpha mask of the descriptor is 0 and its alpha tag is
opaque, whatever the alpha-first, premultiplication and byte-order bits are;
when no big-endian bit is set the red, green and blue masks are `((1 <<
bits_per_sample) - 1)` shifted by 0, `bits_per_sample` and twice
`bits_per_sample`. -/
theorem inferSurfaceFormat_without_alpha (bitmap : NSBitmapImageRep)
    (sf0 : SurfaceFormatData)
    (hfloat : hasFlag bitmap.bitmapFormat NSBitmapFormatFloatingPointSamples = false)
    (hplanar : bitmap.planar = false)
    (hsamples : bitmap.samplesPerPixel ≥ 3)
    (halpha : bitmap.alpha = false) :
    ∃ sf, inferSurfaceFormat bitmap sf0 = Except.ok sf ∧
      sf.alphaMask = 0 ∧ sf.pixelAlpha = PixelAlpha.kOpaque ∧
      (bigEndian bitmap = false →
        sf.redMask = ((1 <<< bitsPerSample bitmap) - 1) <<< 0 ∧
        sf.greenMask = ((1 <<< bitsPerSample bitmap) - 1) <<< bitsPerSample bitmap ∧
        sf.blueMask = ((1 <<< bitsPerSample bitmap) - 1) <<< (2 * bitsPerSample bitmap)) := by
  unfold bigEndian
  unfold inferSurfaceFormat bitsPerSample
  simp only [hfloat, hplanar, hsamples, halpha]
  by_cases h16 : bitmap.bitsPerPixel = 16 <;>
  by_cases hbe : (hasFlag bitmap.bitmapFormat NSBitmapFormatSixteenBitBigEndian ||
      hasFlag bitmap.bitmapFormat NSBitmapFormatThirtyTwoBitBigEndian) = true <;>
    simp +decide [h16, hbe, SurfaceFormatData.setShiftAt, SurfaceFormatData.setMaskAt,
      SurfaceFormatData.shiftAt, channelMask, u32]

theorem inferSurfaceFormat_without_alpha_witness :
    (hasFlag sampleRgb24.bitmapFormat NSBitmapFormatFloatingPointSamples = false ∧
      sampleRgb24.planar = false ∧ sampleRgb24.samplesPerPixel ≥ 3 ∧
      sampleRgb24.alpha = false) ∧
    ∃ sf, inferSurfaceFormat sampleRgb24 SurfaceFormatData.zero = Except.ok sf ∧
      sf.alphaMask = 0 ∧ sf.pixelAlpha = PixelAlpha.kOpaque ∧
      (bigEndian sampleRgb24 = false →
        sf.redMask = ((1 <<< bitsPerSample sampleRgb24) - 1) <<< 0 ∧
        sf.greenMask = ((1 <<< bitsPerSample sampleRgb24) - 1) <<< bitsPerSample sampleRgb24 ∧
        sf.blueMask =
          ((1 <<< bitsPerSample sampleRgb24) - 1) <<< (2 * bitsPerSample sampleRgb24)) :=
  ⟨by decide,
    inferSurfaceFormat_without_alpha sampleRgb24 SurfaceFormatData.zero
      (by decide) (by decide) (by decide) (by decide)⟩

/-- C10, as stated, fails: the 16 bits per pixel bitmap with alpha last is
accepted and has 4 samples per pixel, and the alpha mask inferred for it,
`31 << 15`, is not below `2 ^ 16`. -/
theorem inferSurfaceFormat_mask_outside_pixel :
    hasFlag sampleRgba16.bitmapFormat NSBitmapFormatFloatingPointSamples = false ∧
      sampleRgba16.planar = false ∧ sampleRgba16.samplesPerPixel ≥ 3 ∧
      ∃ sf, inferSurfaceFormat sampleRgba16 SurfaceFormatData.zero = Except.ok sf ∧
        sf.alphaMask = 1015808 ∧ ¬ sf.alphaMask < 2 ^ sampleRgba16.bitsPerPixel :=
  ⟨by decide, by decide, by decide, _, rfl, by decide, by decide⟩

/-- C10, amended: for an accepted bitmap with at least 3 samples per pixel, the
four masks are all below `2 ^ bitsPerPixel` exactly when the channels fit the
pixel, that is when `bits_per_sample` times the number of channels (4 with
alpha, 3 without) is at most the bits per pixel; and in every case any two of
the four masks have no bit in common. -/
theorem inferSurfaceFormat_masks_fit_and_disjoint (bitmap : NSBitmapImageRep)
    (sf0 : SurfaceFormatData)
    (hfloat : hasFlag bitmap.bitmapFormat NSBitmapFormatFloatingPointSamples = false)
    (hplanar : bitmap.planar = false)
    (hsamples : bitmap.samplesPerPixel ≥ 3) :
    ∃ sf, inferSurfaceFormat bitmap sf0 = Except.ok sf ∧
      ((sf.redMask < 2 ^ bitmap.bitsPerPixel ∧ sf.greenMask < 2 ^ bitmap.bitsPerPixel ∧
          sf.blueMask < 2 ^ bitmap.bitsPerPixel ∧ sf.alphaMask < 2 ^ bitmap.bitsPerPixel) ↔
        (if bitmap.alpha then 4 else 3) * bitsPerSample bitmap ≤ bitmap.bitsPerPixel) ∧
      sf.redMask &&& sf.greenMask = 0 ∧ sf.redMask &&& sf.blueMask = 0 ∧
      sf.redMask &&& sf.alphaMask = 0 ∧ sf.greenMask &&& sf.blueMask = 0 ∧
      sf.greenMask &&& sf.alphaMask = 0 ∧ sf.blueMask &&& sf.alphaMask = 0 := by
  unfold inferSurfaceFormat bitsPerSample
  simp only [hfloat, hplanar, hsamples]
  by_cases h16 : bitmap.bitsPerPixel = 16 <;>
  by_cases hbe : (hasFlag bitmap.bitmapFormat NSBitmapFormatSixteenBitBigEndian ||
      hasFlag bitmap.bitmapFormat NSBitmapFormatThirtyTwoBitBigEndian) = true <;>
  by_cases ha : bitmap.alpha = true <;>
  by_cases hf : hasFlag bitmap.bitmapFormat NSBitmapFormatAlphaFirst = true <;>
    simp +decide [h16, hbe, ha, hf, SurfaceFormatData.setShiftAt, SurfaceFormatData.setMaskAt,
      SurfaceFormatData.shiftAt, channelMask, u32, lt_two_pow_8, lt_two_pow_16,
      lt_two_pow_24, lt_two_pow_32] <;> omega

theorem inferSurfaceFormat_masks_fit_and_disjoint_witness :
    (hasFlag sampleRgba32.bitmapFormat NSBitmapFormatFloatingPointSamples = false ∧
      sampleRgba32.planar = false ∧ sampleRgba32.samplesPerPixel ≥ 3) ∧
    ∃ sf, inferSurfaceFormat sampleRgba32 SurfaceFormatData.zero = Except.ok sf ∧
      ((sf.redMask < 2 ^ sampleRgba32.bitsPerPixel ∧
          sf.greenMask < 2 ^ sampleRgba32.bitsPerPixel ∧
          sf.blueMask < 2 ^ sampleRgba32.bitsPerPixel ∧
          sf.alphaMask < 2 ^ sampleRgba32.bitsPerPixel) ↔
        (if sampleRgba32.alpha then 4 else 3) * bitsPerSample sampleRgba32 ≤
          sampleRgba32.bitsPerPixel) ∧
      sf.redMask &&& sf.greenMask = 0 ∧ sf.redMask &&& sf.blueMask = 0 ∧
      sf.redMask &&& sf.alphaMask = 0 ∧ sf.greenMask &&& sf.blueMask = 0 ∧
      sf.greenMask &&& sf.alphaMask = 0 ∧ sf.blueMask &&& sf.alphaMask = 0 :=
  ⟨by decide,
    inferSurfaceFormat_masks_fit_and_disjoint sampleRgba32 SurfaceFormatData.zero
      (by decide) (by decide) (by decide)⟩

end PixelFormat

/-! ## The data providers -/

section Provider

open os

theorem inferSurfaceFormat_rejects (bitmap : osx.NSBitmapImageRep) (sf0 : SurfaceFormatData)
    (h : hasFlag bitmap.bitmapFormat osx.NSBitmapFormatFloatingPointSamples = true ∨
      bitmap.planar = true) :
    osx.inferSurfaceFormat bitmap sf0 = Except.error "Image format is not supported" := by
  unfold osx.inferSurfaceFormat
  rcases h with h | h <;> simp [h]

theorem inferSurfaceFormat_accepts (bitmap : osx.NSBitmapImageRep) (sf0 : SurfaceFormatData)
    (hfloat : hasFlag bitmap.bitmapFormat osx.NSBitmapFormatFloatingPointSamples = false)
    (hplanar : bitmap.planar = false) :
    ∃ sf, osx.inferSurfaceFormat bitmap sf0 = Except.ok sf := by
  unfold osx.inferSurfaceFormat
  simp only [hfloat, hplanar]
  exact ⟨_, rfl⟩

theorem osx_getImage_of_data (pb : osx.NSPasteboard) (sf0 : SurfaceFormatData)
    (imageType : String) (data : List Nat)
    (htype : pb.availableTypeFromArray [osx.NSPasteboardTypePNG, osx.NSPasteboardTypeTIFF] =
      some imageType)
    (hdata : pb.dataForType imageType = some data) :
    osx.getImage pb sf0 =
      match osx.inferSurfaceFormat
          ((pb.imageRepWithData data).getD osx.NSBitmapImageRep.nil) sf0 with
      | Except.error message => osx.GetImageResult.threw message
      | Except.ok sf =>
        osx.GetImageResult.surface
          (makeSurface ((pb.imageRepWithData data).getD osx.NSBitmapImageRep.nil).pixelsWide
            ((pb.imageRepWithData data).getD osx.NSBitmapImageRep.nil).pixelsHigh sf
            ((pb.imageRepWithData data).getD osx.NSBitmapImageRep.nil).bitmapData) := by
  unfold osx.getImage
  simp only [htype, hdata]

/-- C3: when the pasteboard has an image type and data for it, `getImage`
throws the exception "Image format is not supported" if and only if the decoded
bitmap has floating-point samples or is planar; it throws no other exception;
and when the bitmap is of that kind no descriptor comes out of the inference
and no surface is returned, whatever the other attributes of the bitmap and the
storage content are. -/
theorem osx_getImage_unsupported_iff (pb : osx.NSPasteboard) (sf0 : SurfaceFormatData)
    (imageType : String) (data : List Nat)
    (htype : pb.availableTypeFromArray [osx.NSPasteboardTypePNG, osx.NSPasteboardTypeTIFF] =
      some imageType)
    (hdata : pb.dataForType imageType = some data) :
    (osx.getImage pb sf0 = osx.GetImageResult.threw "Image format is not supported" ↔
      (hasFlag ((pb.imageRepWithData data).getD osx.NSBitmapImageRep.nil).bitmapFormat
          osx.NSBitmapFormatFloatingPointSamples = true ∨
        ((pb.imageRepWithData data).getD osx.NSBitmapImageRep.nil).planar = true)) ∧
    (∀ message, osx.getImage pb sf0 = osx.GetImageResult.threw message →
      message = "Image format is not supported") ∧
    ((hasFlag ((pb.imageRepWithData data).getD osx.NSBitmapImageRep.nil).bitmapFormat
          osx.NSBitmapFormatFloatingPointSamples = true ∨
        ((pb.imageRepWithData data).getD osx.NSBitmapImageRep.nil).planar = true) →
      (∀ sf, osx.inferSurfaceFormat
          ((pb.imageRepWithData data).getD osx.NSBitmapImageRep.nil) sf0 ≠ Except.ok sf) ∧
      ∀ s, osx.getImage pb sf0 ≠ osx.GetImageResult.surface s) := by
  rw [osx_getImage_of_data pb sf0 imageType data htype hdata]
  generalize (pb.imageRepWithData data).getD osx.NSBitmapImageRep.nil = bitmap
  by_cases h : hasFlag bitmap.bitmapFormat osx.NSBitmapFormatFloatingPointSamples = true ∨
      bitmap.planar = true
  · rw [inferSurfaceFormat_rejects bitmap sf0 h]
    simp [h]
  · have hfloat :
        hasFlag bitmap.bitmapFormat osx.NSBitmapFormatFloatingPointSamples = false := by
      cases hx : hasFlag bitmap.bitmapFormat osx.NSBitmapFormatFloatingPointSamples
      · rfl
      · exact absurd (Or.inl hx) h
    have hplanar : bitmap.planar = false := by
      cases hx : bitmap.planar
      · rfl
      · exact absurd (Or.inr hx) h
    obtain ⟨sf, hsf⟩ := inferSurfaceFormat_accepts bitmap sf0 hfloat hplanar
    rw [hsf]
    simp [hfloat, hplanar]

theorem osx_getImage_unsupported_iff_witness :
    (osx.samplePasteboardPlanar.availableTypeFromArray
        [osx.NSPasteboardTypePNG, osx.NSPasteboardTypeTIFF] = some osx.NSPasteboardTypePNG ∧
      osx.samplePasteboardPlanar.dataForType osx.NSPasteboardTypePNG =
        some [137, 80, 78, 71]) ∧
    osx.getImage osx.samplePasteboardPlanar SurfaceFormatData.zero =
      osx.GetImageResult.threw "Image format is not supported" :=
  ⟨by decide,
    (osx_getImage_unsupported_iff osx.samplePasteboardPlanar SurfaceFormatData.zero
      osx.NSPasteboardTypePNG [137, 80, 78, 71] (by decide) (by decide)).1.mpr
      (Or.inr (by decide))⟩

theorem osx_containsLoop_image (types : List String) :
    osx.containsLoop DragDataItemType.Image types = true ↔
      osx.NSPasteboardTypePNG ∈ types ∨ osx.NSPasteboardTypeTIFF ∈ types := by
  induction types with
  | nil => simp [osx.containsLoop]
  | cons t rest ih =>
    unfold osx.containsLoop
    by_cases h1 : t = osx.NSPasteboardTypeTIFF
    · simp [h1]
    · by_cases h2 : t = osx.NSPasteboardTypePNG
      · simp [h2]
      · have h1b : ¬ osx.NSPasteboardTypeTIFF = t := fun h => h1 h.symm
        have h2b : ¬ osx.NSPasteboardTypePNG = t := fun h => h2 h.symm
        simp [h1, h2, h1b, h2b, ih]

theorem osx_availableType_none (pb : osx.NSPasteboard) :
    pb.availableTypeFromArray [osx.NSPasteboardTypePNG, osx.NSPasteboardTypeTIFF] = none ↔
      ¬ (osx.NSPasteboardTypePNG ∈ pb.types ∨ osx.NSPasteboardTypeTIFF ∈ pb.types) := by
  simp [osx.NSPasteboard.availableTypeFromArray]

theorem osx_availableType_mem (pb : osx.NSPasteboard) (t : String)
    (h : pb.availableTypeFromArray [osx.NSPasteboardTypePNG, osx.NSPasteboardTypeTIFF] =
      some t) : t ∈ pb.types := by
  unfold osx.NSPasteboard.availableTypeFromArray at h
  have := List.find?_some h
  simpa using this

theorem osx_getImage_null_iff (pb : osx.NSPasteboard) (sf0 : SurfaceFormatData) :
    osx.getImage pb sf0 = osx.GetImageResult.null ↔
      (pb.availableTypeFromArray [osx.NSPasteboardTypePNG, osx.NSPasteboardTypeTIFF]).bind
        pb.dataForType = none := by
  unfold osx.getImage
  cases ht : pb.availableTypeFromArray [osx.NSPasteboardTypePNG, osx.NSPasteboardTypeTIFF] with
  | none => simp
  | some t =>
    cases hd : pb.dataForType t with
    | none => simp [hd]
    | some d =>
      simp only [Option.bind_some, hd]
      cases osx.inferSurfaceFormat ((pb.imageRepWithData d).getD osx.NSBitmapImageRep.nil) sf0 <;>
        simp [hd]

theorem win_containsLoop_file_list (names : win.ClipboardFormatNames)
    (hname : names win.CF_HDROP = none) (fmts : List win.FORMATETC)
    (h : ∀ f ∈ fmts, f.cfFormat = win.CF_HDROP) :
    win.containsLoop names DragDataItemType.Image fmts = false := by
  induction fmts with
  | nil => rfl
  | cons f rest ih =>
    have hf : f.cfFormat = win.CF_HDROP := h f (List.mem_cons_self _ _)
    have hrest := ih (fun g hg => h g (List.mem_cons_of_mem _ hg))
    have hn : win.clipboardFormatName names win.CF_HDROP = [] := by
      simp [win.clipboardFormatName, hname]
    unfold win.containsLoop
    rw [hf, hn, hrest]
    decide

/-- C4, as stated, fails on both platforms: on Windows a data object that
offers `CF_DIB` has `contains(Image)` true while `getImage` returns null; on
macOS a pasteboard that declares PNG but yields no data for it has
`contains(Image)` true while `getImage` returns null. -/
theorem contains_image_without_image :
    ¬ (win.contains win.sampleNoNames win.sampleDibObject DragDataItemType.Image = true ↔
        win.getImage win.sampleDibObject ≠ none) ∧
    ¬ (osx.contains osx.samplePasteboardNoData DragDataItemType.Image = true ↔
        osx.getImage osx.samplePasteboardNoData SurfaceFormatData.zero ≠
          osx.GetImageResult.null) := by
  decide

end Provider

section ProviderAmended

open os

/-- C4, amended: for both providers, when `getImage` does not return null then
`contains(Image)` is true (on Windows `getImage` always returns null); on macOS
the converse holds as well when the pasteboard yields data for every type it
declares; and on a transfer that offers only a file list `contains(Image)` is
false and `getImage` returns null, on both platforms. -/
theorem contains_image_of_getImage (names : win.ClipboardFormatNames)
    (m_data : win.IDataObject) (pb : osx.NSPasteboard) (sf0 : SurfaceFormatData) :
    win.getImage m_data = none ∧
    (win.getImage m_data ≠ none → win.contains names m_data DragDataItemType.Image = true) ∧
    (osx.getImage pb sf0 ≠ osx.GetImageResult.null →
      osx.contains pb DragDataItemType.Image = true) ∧
    ((∀ t ∈ pb.types, pb.dataForType t ≠ none) →
      (osx.contains pb DragDataItemType.Image = true ↔
        osx.getImage pb sf0 ≠ osx.GetImageResult.null)) ∧
    ((∃ fmts, m_data.formats = some fmts ∧ ∀ f ∈ fmts, f.cfFormat = win.CF_HDROP) →
      names win.CF_HDROP = none →
      win.contains names m_data DragDataItemType.Image = false ∧
        win.getImage m_data = none) ∧
    ((∀ t ∈ pb.types, t = osx.NSFilenamesPboardType) →
      osx.contains pb DragDataItemType.Image = false ∧
        osx.getImage pb sf0 = osx.GetImageResult.null) := by
  have hdir : osx.getImage pb sf0 ≠ osx.GetImageResult.null →
      osx.contains pb DragDataItemType.Image = true := by
    intro h
    rw [Ne, osx_getImage_null_iff] at h
    unfold osx.contains
    rw [osx_containsLoop_image]
    by_contra hno
    rw [← osx_availableType_none] at hno
    rw [hno] at h
    exact h rfl
  refine ⟨rfl, fun h => absurd rfl h, hdir, ?_, ?_, ?_⟩
  · intro hdata
    refine ⟨fun hc => ?_, hdir⟩
    rw [Ne, osx_getImage_null_iff]
    unfold osx.contains at hc
    rw [osx_containsLoop_image] at hc
    cases ht : pb.availableTypeFromArray
        [osx.NSPasteboardTypePNG, osx.NSPasteboardTypeTIFF] with
    | none => exact absurd hc ((osx_availableType_none pb).mp ht)
    | some t => exact hdata t (osx_availableType_mem pb t ht)
  · rintro ⟨fmts, hfmts, hall⟩ hname
    refine ⟨?_, rfl⟩
    unfold win.contains
    rw [hfmts]
    exact win_containsLoop_file_list names hname fmts hall
  · intro hall
    have hno : ¬ (osx.NSPasteboardTypePNG ∈ pb.types ∨ osx.NSPasteboardTypeTIFF ∈ pb.types) := by
      rintro (h | h)
      · exact absurd (hall _ h) (by decide)
      · exact absurd (hall _ h) (by decide)
    constructor
    · unfold osx.contains
      cases hc : osx.containsLoop DragDataItemType.Image pb.types
      · rfl
      · exact absurd ((osx_containsLoop_image pb.types).mp hc) hno
    · rw [osx_getImage_null_iff, (osx_availableType_none pb).mpr hno]
      rfl

theorem contains_image_of_getImage_witness :
    (∀ t ∈ osx.samplePasteboardImage.types, osx.samplePasteboardImage.dataForType t ≠ none) ∧
    (osx.contains osx.samplePasteboardImage DragDataItemType.Image = true ↔
      osx.getImage osx.samplePasteboardImage SurfaceFormatData.zero ≠
        osx.GetImageResult.null) :=
  ⟨by decide,
    (contains_image_of_getImage win.sampleNoNames win.sampleDibObject
      osx.samplePasteboardImage SurfaceFormatData.zero).2.2.2.1 (by decide)⟩

end ProviderAmended

/-! ## The drag target adapter -/

section Adapter

open os win

/-- C5: with a window that has a drag target and non-null data objects, after
DragEnter, DragOver, DragOver, Drop the adapter holds no data handle, the
window having been notified of the enter, the two moves and the drop; after
DragEnter, DragLeave the adapter holds no data handle either, and the window
was notified of the enter and of the leave only, so not of a drop. -/
theorem session_ends_idle (E : DropOperation) (m_window : Window)
    (htarget : m_window.hasDragTarget = true) (adapter : DragTargetAdapter)
    (d1 d2 : IDataObject) (k1 k2 k3 k4 : Nat) (p1 p2 p3 p4 : Point) (e1 e2 e3 e4 : Nat) :
    (Session.run E m_window { adapter := adapter, notified := [] }
        [Callback.DragEnter (some d1) k1 p1 e1, Callback.DragOver k2 p2 e2,
          Callback.DragOver k3 p3 e3, Callback.Drop (some d2) k4 p4 e4]).adapter.m_data =
      none ∧
    (Session.run E m_window { adapter := adapter, notified := [] }
        [Callback.DragEnter (some d1) k1 p1 e1, Callback.DragOver k2 p2 e2,
          Callback.DragOver k3 p3 e3, Callback.Drop (some d2) k4 p4 e4]).notified =
      [Notification.dragEnter
          { supportedOperations := as_dropoperation E e1,
            position := drag_position m_window p1, dataProvider := some d1 },
        Notification.drag
          { supportedOperations := as_dropoperation E e2,
            position := drag_position m_window p2, dataProvider := some d1 },
        Notification.drag
          { supportedOperations := as_dropoperation E e3,
            position := drag_position m_window p3, dataProvider := some d1 },
        Notification.drop
          { supportedOperations := as_dropoperation E e4,
            position := drag_position m_window p4, dataProvider := some d2 }] ∧
    (Session.run E m_window { adapter := adapter, notified := [] }
        [Callback.DragEnter (some d1) k1 p1 e1]).adapter.m_data = some d1 ∧
    (Session.run E m_window { adapter := adapter, notified := [] }
        [Callback.DragEnter (some d1) k1 p1 e1, Callback.DragLeave]).adapter.m_data = none ∧
    (Session.run E m_window { adapter := adapter, notified := [] }
        [Callback.DragEnter (some d1) k1 p1 e1, Callback.DragLeave]).notified =
      [Notification.dragEnter
          { supportedOperations := as_dropoperation E e1,
            position := drag_position m_window p1, dataProvider := some d1 },
        Notification.dragLeave
          { supportedOperations := E.None,
            position := drag_position m_window p1, dataProvider := some d1 }] := by
  simp [Session.run, Session.deliver, DragEnter, DragOver, DragLeave, Drop, htarget]

theorem session_ends_idle_witness :
    sampleWindow.hasDragTarget = true ∧
    (Session.run DropOperation.standard sampleWindow
        { adapter := sampleIdleAdapter, notified := [] }
        [Callback.DragEnter (some sampleDibObject) 1 { x := 110, y := 60 } 7,
          Callback.DragOver 1 { x := 120, y := 70 } 7,
          Callback.DragOver 1 { x := 130, y := 80 } 7,
          Callback.Drop (some sampleDibObject) 0 { x := 130, y := 80 } 7]).adapter.m_data =
      none :=
  ⟨rfl,
    (session_ends_idle DropOperation.standard sampleWindow rfl sampleIdleAdapter
      sampleDibObject sampleDibObject 1 1 1 0 { x := 110, y := 60 } { x := 120, y := 70 }
      { x := 130, y := 80 } { x := 130, y := 80 } 7 7 7 7).1⟩

/-- C6: when `hasDragTarget()` of the window is false, each of DragEnter,
DragOver, DragLeave and Drop returns `E_NOTIMPL`, leaves the held data handle
and the stored position as they were, leaves `*pdwEffect` as it was, and
invokes no notify handler of the window, whatever the adapter state and the
arguments are. -/
theorem callbacks_without_drag_target (E : DropOperation) (m_window : Window)
    (htarget : m_window.hasDragTarget = false) (adapter : DragTargetAdapter)
    (pDataObj : Option IDataObject) (grfKeyState : Nat) (pt : Point) (pdwEffect : Nat) :
    DragEnter E m_window adapter pDataObj grfKeyState pt pdwEffect =
      { hr := E_NOTIMPL, adapter := adapter, pdwEffect := pdwEffect, notified := [] } ∧
    DragOver E m_window adapter grfKeyState pt pdwEffect =
      { hr := E_NOTIMPL, adapter := adapter, pdwEffect := pdwEffect, notified := [] } ∧
    DragLeave E m_window adapter =
      { hr := E_NOTIMPL, adapter := adapter, notified := [] } ∧
    Drop E m_window adapter pDataObj grfKeyState pt pdwEffect =
      { hr := E_NOTIMPL, adapter := adapter, pdwEffect := pdwEffect, notified := [] } := by
  simp [DragEnter, DragOver, DragLeave, Drop, htarget]

theorem callbacks_without_drag_target_witness :
    sampleWindowNoTarget.hasDragTarget = false ∧
    Drop DropOperation.standard sampleWindowNoTarget sampleAdapter (some sampleDibObject) 0
        { x := 130, y := 80 } 7 =
      { hr := 0x80004001, adapter := sampleAdapter, pdwEffect := 7, notified := [] } :=
  ⟨rfl,
    (callbacks_without_drag_target DropOperation.standard sampleWindowNoTarget rfl
      sampleAdapter (some sampleDibObject) 0 { x := 130, y := 80 } 7).2.2.2⟩

end Adapter
